import Mathlib

/-!
Shallow embedding of the Cryptopia node.js API client (`src/index.js`):
the private-call signing pipeline (`Cryptopia.privateRequest`), the
public-call pipeline (`Cryptopia.publicRequest`) and the response
normalisation (`executeRequest`, `mapErrorMessage`), together with
executable models of the JavaScript primitives they use
(`JSON.stringify`, `JSON.parse`, `encodeURIComponent`,
`String.prototype.toLowerCase`, `Buffer` base64 encode/decode, MD5 and
HMAC-SHA256 from node's `crypto`, and underscore's `_.isObject` and
`_.has`).  Machine words are naturals reduced modulo `2 ^ 32`; byte
strings are lists of naturals below 256.
-/

namespace Cryptopia

/-- Reduce a natural number to a 32-bit word. -/
def u32 (x : Nat) : Nat := x % 4294967296

/-- Left-rotate a 32-bit word by `n` bits (`0 ≤ n ≤ 32`). -/
def rotl32 (x n : Nat) : Nat := u32 ((x <<< n) ||| (u32 x >>> (32 - n)))

/-- Right-rotate a 32-bit word by `n` bits (`0 ≤ n ≤ 32`). -/
def rotr32 (x n : Nat) : Nat := u32 ((u32 x >>> n) ||| (x <<< (32 - n)))

/-- Bitwise complement of a 32-bit word. -/
def not32 (x : Nat) : Nat := Nat.xor (u32 x) 4294967295

/-- Little-endian bytes of a 32-bit word. -/
def leBytes4 (w : Nat) : List Nat :=
  [w % 256, w / 256 % 256, w / 65536 % 256, w / 16777216 % 256]

/-- Big-endian bytes of a 32-bit word. -/
def beBytes4 (w : Nat) : List Nat :=
  [w / 16777216 % 256, w / 65536 % 256, w / 256 % 256, w % 256]

/-- Little-endian bytes of a 64-bit value. -/
def leBytes8 (n : Nat) : List Nat :=
  leBytes4 (n % 4294967296) ++ leBytes4 (n / 4294967296 % 4294967296)

/-- Big-endian bytes of a 64-bit value. -/
def beBytes8 (n : Nat) : List Nat :=
  beBytes4 (n / 4294967296 % 4294967296) ++ beBytes4 (n % 4294967296)

/-- Decode a byte list as little-endian 32-bit words (groups of four). -/
def leWords : List Nat → List Nat
  | b0 :: b1 :: b2 :: b3 :: rest =>
    (b0 + 256 * b1 + 65536 * b2 + 16777216 * b3) :: leWords rest
  | _ => []

/-- Decode a byte list as big-endian 32-bit words (groups of four). -/
def beWords : List Nat → List Nat
  | b0 :: b1 :: b2 :: b3 :: rest =>
    (b3 + 256 * b2 + 65536 * b1 + 16777216 * b0) :: beWords rest
  | _ => []

/-- Split a list into 64-element blocks; the fuel argument bounds the
number of blocks and is structural so that the kernel can evaluate it. -/
def chunks64F : Nat → List Nat → List (List Nat)
  | 0, _ => []
  | _, [] => []
  | fuel + 1, l => l.take 64 :: chunks64F fuel (l.drop 64)

/-- Split a byte list into 64-byte blocks (a list of `n` bytes has at
most `n` nonempty blocks, so `n + 1` units of fuel always suffice). -/
def chunks64 (l : List Nat) : List (List Nat) := chunks64F (l.length + 1) l

/-- MD5 round constants `⌊2³² · |sin (i + 1)|⌋`. -/
def md5K : List Nat := [
  0xd76aa478, 0xe8c7b756, 0x242070db, 0xc1bdceee, 0xf57c0faf, 0x4787c62a, 0xa8304613, 0xfd469501,
  0x698098d8, 0x8b44f7af, 0xffff5bb1, 0x895cd7be, 0x6b901122, 0xfd987193, 0xa679438e, 0x49b40821,
  0xf61e2562, 0xc040b340, 0x265e5a51, 0xe9b6c7aa, 0xd62f105d, 0x02441453, 0xd8a1e681, 0xe7d3fbc8,
  0x21e1cde6, 0xc33707d6, 0xf4d50d87, 0x455a14ed, 0xa9e3e905, 0xfcefa3f8, 0x676f02d9, 0x8d2a4c8a,
  0xfffa3942, 0x8771f681, 0x6d9d6122, 0xfde5380c, 0xa4beea44, 0x4bdecfa9, 0xf6bb4b60, 0xbebfbc70,
  0x289b7ec6, 0xeaa127fa, 0xd4ef3085, 0x04881d05, 0xd9d4d039, 0xe6db99e5, 0x1fa27cf8, 0xc4ac5665,
  0xf4292244, 0x432aff97, 0xab9423a7, 0xfc93a039, 0x655b59c3, 0x8f0ccc92, 0xffeff47d, 0x85845dd1,
  0x6fa87e4f, 0xfe2ce6e0, 0xa3014314, 0x4e0811a1, 0xf7537e82, 0xbd3af235, 0x2ad7d2bb, 0xeb86d391]

/-- MD5 per-round left-rotation amounts. -/
def md5S : List Nat := [
  7, 12, 17, 22, 7, 12, 17, 22, 7, 12, 17, 22, 7, 12, 17, 22,
  5, 9, 14, 20, 5, 9, 14, 20, 5, 9, 14, 20, 5, 9, 14, 20,
  4, 11, 16, 23, 4, 11, 16, 23, 4, 11, 16, 23, 4, 11, 16, 23,
  6, 10, 15, 21, 6, 10, 15, 21, 6, 10, 15, 21, 6, 10, 15, 21]

/-- MD5 round function and message-word index for round `i`. -/
def md5F (b c d i : Nat) : Nat × Nat :=
  if i < 16 then ((b &&& c) ||| (not32 b &&& d), i)
  else if i < 32 then ((d &&& b) ||| (not32 d &&& c), (5 * i + 1) % 16)
  else if i < 48 then (b ^^^ c ^^^ d, (3 * i + 5) % 16)
  else (c ^^^ (b ||| not32 d), (7 * i) % 16)

/-- One MD5 operation on state `(a, b, c, d)` with message words `m`. -/
def md5Step (m : List Nat) (st : Nat × Nat × Nat × Nat) (i : Nat) :
    Nat × Nat × Nat × Nat :=
  let (a, b, c, d) := st
  let fg := md5F b c d i
  let t := u32 (a + fg.1 + md5K.getD i 0 + m.getD fg.2 0)
  (d, u32 (b + rotl32 t (md5S.getD i 0)), b, c)

/-- Process one 64-byte MD5 block. -/
def md5Block (st : Nat × Nat × Nat × Nat) (block : List Nat) :
    Nat × Nat × Nat × Nat :=
  let m := leWords block
  let r := (List.range 64).foldl (md5Step m) st
  (u32 (r.1 + st.1), u32 (r.2.1 + st.2.1), u32 (r.2.2.1 + st.2.2.1),
   u32 (r.2.2.2 + st.2.2.2))

/-- MD5 padding: a `0x80` byte, zeros to 56 mod 64, then the bit length
as a little-endian 64-bit value. -/
def md5Pad (msg : List Nat) : List Nat :=
  msg ++ [128] ++ List.replicate ((120 - (msg.length + 1) % 64) % 64) 0 ++
    leBytes8 (8 * msg.length)

/-- MD5 digest (16 bytes) of a byte string. -/
def md5Bytes (msg : List Nat) : List Nat :=
  let r := (chunks64 (md5Pad msg)).foldl md5Block
    (0x67452301, 0xefcdab89, 0x98badcfe, 0x10325476)
  leBytes4 r.1 ++ leBytes4 r.2.1 ++ leBytes4 r.2.2.1 ++ leBytes4 r.2.2.2

/-- SHA-256 round constants (FIPS 180-4 section 4.2.2, the first 32
bits of the fractional parts of the cube roots of the first 64 primes,
here in decimal). -/
def shaK : List Nat := [
  1116352408, 1899447441, 3049323471, 3921009573, 961987163, 1508970993,
  2453635748, 2870763221, 3624381080, 310598401, 607225278, 1426881987,
  1925078388, 2162078206, 2614888103, 3248222580, 3835390401, 4022224774,
  264347078, 604807628, 770255983, 1249150122, 1555081692, 1996064986,
  2554220882, 2821834349, 2952996808, 3210313671, 3336571891, 3584528711,
  113926993, 338241895, 666307205, 773529912, 1294757372, 1396182291,
  1695183700, 1986661051, 2177026350, 2456956037, 2730485921, 2820302411,
  3259730800, 3345764771, 3516065817, 3600352804, 4094571909, 275423344,
  430227734, 506948616, 659060556, 883997877, 958139571, 1322822218,
  1537002063, 1747873779, 1955562222, 2024104815, 2227730452, 2361852424,
  2428436474, 2756734187, 3204031479, 3329325298]

/-- SHA-256 initial hash state (FIPS 180-4 section 5.3.3, the first 32
bits of the fractional parts of the square roots of the first 8 primes,
here in decimal). -/
def shaH0 : List Nat := [
  1779033703, 3144134277, 1013904242, 2773480762,
  1359893119, 2600822924, 528734635, 1541459225]

/-- SHA-256 message-schedule sigma functions and compression functions. -/
def sSigma0 (x : Nat) : Nat := rotr32 x 7 ^^^ rotr32 x 18 ^^^ (u32 x >>> 3)

/-- SHA-256 small sigma 1. -/
def sSigma1 (x : Nat) : Nat := rotr32 x 17 ^^^ rotr32 x 19 ^^^ (u32 x >>> 10)

/-- SHA-256 big sigma 0. -/
def bSigma0 (x : Nat) : Nat := rotr32 x 2 ^^^ rotr32 x 13 ^^^ rotr32 x 22

/-- SHA-256 big sigma 1. -/
def bSigma1 (x : Nat) : Nat := rotr32 x 6 ^^^ rotr32 x 11 ^^^ rotr32 x 25

/-- SHA-256 choice function. -/
def chF (x y z : Nat) : Nat := (x &&& y) ^^^ (not32 x &&& z)

/-- SHA-256 majority function. -/
def majF (x y z : Nat) : Nat := (x &&& y) ^^^ (x &&& z) ^^^ (y &&& z)

/-- Extend the 16 message words of a block to the 64-word schedule. -/
def shaSchedule (m : List Nat) : List Nat :=
  (List.range 48).foldl
    (fun w _ =>
      w ++ [u32 (sSigma1 (w.getD (w.length - 2) 0) + w.getD (w.length - 7) 0 +
        sSigma0 (w.getD (w.length - 15) 0) + w.getD (w.length - 16) 0)])
    m

/-- Process one 64-byte SHA-256 block over an 8-word state. -/
def shaCompress (st : List Nat) (block : List Nat) : List Nat :=
  let w := shaSchedule (beWords block)
  let step := fun (s : List Nat) (i : Nat) =>
    match s with
    | [a, b, c, d, e, f, g, h] =>
      let t1 := u32 (h + bSigma1 e + chF e f g + shaK.getD i 0 + w.getD i 0)
      let t2 := u32 (bSigma0 a + majF a b c)
      [u32 (t1 + t2), a, b, c, u32 (d + t1), e, f, g]
    | s => s
  let fin := (List.range 64).foldl step st
  (st.zip fin).map (fun p => u32 (p.1 + p.2))

/-- SHA-256 padding: a `0x80` byte, zeros to 56 mod 64, then the bit
length as a big-endian 64-bit value. -/
def shaPad (msg : List Nat) : List Nat :=
  msg ++ [128] ++ List.replicate ((120 - (msg.length + 1) % 64) % 64) 0 ++
    beBytes8 (8 * msg.length)

/-- SHA-256 digest (32 bytes) of a byte string. -/
def sha256Bytes (msg : List Nat) : List Nat :=
  ((chunks64 (shaPad msg)).foldl shaCompress shaH0).flatMap beBytes4

/-- HMAC-SHA256 (node `crypto.createHmac('sha256', key)`): block size 64,
keys longer than the block are first hashed, shorter keys zero-padded. -/
def hmacSha256 (key msg : List Nat) : List Nat :=
  let k0 := if key.length > 64 then sha256Bytes key else key
  let k := k0 ++ List.replicate (64 - k0.length) 0
  let ipad := k.map (fun b => Nat.xor b 54)
  let opad := k.map (fun b => Nat.xor b 92)
  sha256Bytes (opad ++ sha256Bytes (ipad ++ msg))

/-- UTF-8 encoding of one character. -/
def utf8EncodeChar (c : Char) : List Nat :=
  let n := c.toNat
  if n < 128 then [n]
  else if n < 2048 then [192 + n / 64, 128 + n % 64]
  else if n < 65536 then [224 + n / 4096, 128 + n / 64 % 64, 128 + n % 64]
  else [240 + n / 262144, 128 + n / 4096 % 64, 128 + n / 64 % 64, 128 + n % 64]

/-- UTF-8 encoding of a string (the byte view node's `Buffer.byteLength`
and the hash functions operate on). -/
def utf8Encode (s : String) : List Nat := s.data.flatMap utf8EncodeChar

/-- Base64 alphabet character for a 6-bit value. -/
def b64c (n : Nat) : Char :=
  "ABCDEFGHIJKLMNOPQRSTUVWXYZabcdefghijklmnopqrstuvwxyz0123456789+/".data.getD n 'A'

/-- Standard base64 encoding of a byte list, with `=` padding
(node `buffer.toString('base64')`). -/
def base64EncodeChars : List Nat → List Char
  | b0 :: b1 :: b2 :: rest =>
    b64c (b0 / 4) :: b64c (b0 % 4 * 16 + b1 / 16) ::
      b64c (b1 % 16 * 4 + b2 / 64) :: b64c (b2 % 64) :: base64EncodeChars rest
  | [b0, b1] => [b64c (b0 / 4), b64c (b0 % 4 * 16 + b1 / 16), b64c (b1 % 16 * 4), '=']
  | [b0] => [b64c (b0 / 4), b64c (b0 % 4 * 16), '=', '=']
  | [] => []

/-- Base64 encoding of a byte list as a string. -/
def base64Encode (bytes : List Nat) : String := String.mk (base64EncodeChars bytes)

/-- Value of one base64 alphabet character, `none` for characters outside
the alphabet (which node's decoder skips). -/
def b64val (c : Char) : Option Nat :=
  let n := c.toNat
  if 65 ≤ n ∧ n ≤ 90 then some (n - 65)
  else if 97 ≤ n ∧ n ≤ 122 then some (n - 97 + 26)
  else if 48 ≤ n ∧ n ≤ 57 then some (n - 48 + 52)
  else if c = '+' then some 62
  else if c = '/' then some 63
  else none

/-- Reassemble bytes from base64 sextets; a trailing group of 2 or 3
sextets contributes 1 or 2 bytes, a lone trailing sextet is dropped
(node `Buffer.from(s, 'base64')` semantics, which also tolerate missing
`=` padding). -/
def b64group : List Nat → List Nat
  | a :: b :: c :: d :: rest =>
    (a * 4 + b / 16) :: (b % 16 * 16 + c / 4) :: (c % 4 * 64 + d) :: b64group rest
  | [a, b, c] => [a * 4 + b / 16, b % 16 * 16 + c / 4]
  | [a, b] => [a * 4 + b / 16]
  | _ => []

/-- Base64 decoding of a string to bytes, node `Buffer.from(s, 'base64')`
style: characters outside the alphabet (including `=`) are ignored. -/
def base64Decode (s : String) : List Nat := b64group (s.data.filterMap b64val)

/-- Hex digit characters, upper case (as `encodeURIComponent` emits). -/
def hexUpper (n : Nat) : Char := "0123456789ABCDEF".data.getD n '0'

/-- Hex digit characters, lower case (as `JSON.stringify` escapes emit). -/
def hexLower (n : Nat) : Char := "0123456789abcdef".data.getD n '0'

/-- Characters `encodeURIComponent` leaves unescaped:
`A–Z a–z 0–9 - _ . ! ~ * ' ( )`. -/
def uriUnreserved (c : Char) : Bool :=
  c.isAlpha || c.isDigit || c = '-' || c = '_' || c = '.' || c = '!' ||
    c = '~' || c = '*' || c = '\'' || c = '(' || c = ')'

/-- JavaScript `encodeURIComponent`: unreserved characters pass through,
every other character becomes the percent-encoding of its UTF-8 bytes. -/
def encodeURIComponent (s : String) : String :=
  String.mk (s.data.flatMap (fun c =>
    if uriUnreserved c then [c]
    else (utf8EncodeChar c).flatMap (fun b => ['%', hexUpper (b / 16), hexUpper (b % 16)])))

/-- JavaScript `String.prototype.toLowerCase` on the ASCII range (the
URLs this client signs are ASCII). -/
def asciiLower (s : String) : String := String.mk (s.data.map Char.toLower)

/-- JavaScript values as the client manipulates them: `undefined`,
`null`, booleans, (integer-valued) numbers, strings, arrays, plain
objects as ordered key-value lists, and functions (opaque). -/
inductive JsValue where
  | undefined
  | null
  | bool (b : Bool)
  | num (n : Int)
  | str (s : String)
  | arr (elems : List JsValue)
  | obj (entries : List (String × JsValue))
  | func
deriving Repr

/-- Underscore's `_.isObject`: true exactly for values of type `object`
other than `null`, and for functions — so plain objects, arrays and
functions pass, while strings, numbers, booleans, `null` and
`undefined` fail. -/
def isObject : JsValue → Bool
  | .obj _ => true
  | .arr _ => true
  | .func => true
  | _ => false

/-- JavaScript truthiness: `undefined`, `null`, `false`, `0` and `""`
are falsy, everything else is truthy. -/
def truthy : JsValue → Bool
  | .undefined => false
  | .null => false
  | .bool b => b
  | .num n => decide (n ≠ 0)
  | .str s => decide (s ≠ "")
  | _ => true

/-- Property access `v[k]`: the first entry with the key on a plain
object, `undefined` otherwise (the values this client reads properties
from are objects or arrays, never `null`). -/
def getProp (v : JsValue) (k : String) : JsValue :=
  match v with
  | .obj kvs => (kvs.lookup k).getD .undefined
  | _ => .undefined

/-- Underscore's `_.has(v, k)`: own-property test, true only on plain
objects carrying the key. -/
def hasProp (v : JsValue) (k : String) : Bool :=
  match v with
  | .obj kvs => kvs.any (fun kv => kv.1 = k)
  | _ => false

mutual

/-- JavaScript `String(v)` coercion (used by template literals and by
`new Error(v)`). -/
def jsString : JsValue → String
  | .undefined => "undefined"
  | .null => "null"
  | .bool true => "true"
  | .bool false => "false"
  | .num n => toString n
  | .str s => s
  | .func => "function"
  | .obj _ => "[object Object]"
  | .arr es => jsStringArr es

/-- Array-to-string coercion: elements joined by commas, `null` and
`undefined` elements become empty strings. -/
def jsStringArr : List JsValue → String
  | [] => ""
  | v :: rest =>
    let sv := match v with
      | .undefined => ""
      | .null => ""
      | w => jsString w
    match rest with
    | [] => sv
    | _ => sv ++ "," ++ jsStringArr rest

end

/-- Escape one character for a JSON string literal, as `JSON.stringify`
does: `\"`, `\\`, the whitespace shorthands, `\u00xx` for the other
control characters. -/
def jsonEscapeChar (c : Char) : List Char :=
  if c = '"' then ['\\', '"']
  else if c = '\\' then ['\\', '\\']
  else if c.toNat = 8 then ['\\', 'b']
  else if c.toNat = 9 then ['\\', 't']
  else if c.toNat = 10 then ['\\', 'n']
  else if c.toNat = 12 then ['\\', 'f']
  else if c.toNat = 13 then ['\\', 'r']
  else if c.toNat < 32 then
    ['\\', 'u', '0', '0', hexLower (c.toNat / 16), hexLower (c.toNat % 16)]
  else [c]

/-- Quote a string as a JSON string literal. -/
def jsonQuote (s : String) : String :=
  "\"" ++ String.mk (s.data.flatMap jsonEscapeChar) ++ "\""

mutual

/-- JavaScript `JSON.stringify` on the modelled values: `none` when the
result is the value `undefined` rather than a string (top-level
`undefined` or function).  Object entries whose value does not
stringify are omitted; array elements that do not stringify become
`null`.  Keys are kept in insertion order (the object literals this
client builds have no integer-like keys). -/
def stringifyVal : JsValue → Option String
  | .undefined => none
  | .func => none
  | .null => some "null"
  | .bool true => some "true"
  | .bool false => some "false"
  | .num n => some (toString n)
  | .str s => some (jsonQuote s)
  | .arr es => some ("[" ++ stringifyArr es ++ "]")
  | .obj kvs => some ("\x7b" ++ stringifyObj kvs ++ "\x7d")

/-- Serialize array elements, comma-separated. -/
def stringifyArr : List JsValue → String
  | [] => ""
  | v :: rest =>
    let sv := (stringifyVal v).getD "null"
    match rest with
    | [] => sv
    | _ => sv ++ "," ++ stringifyArr rest

/-- Serialize object entries, comma-separated, omitting entries whose
value does not stringify. -/
def stringifyObj : List (String × JsValue) → String
  | [] => ""
  | (k, v) :: rest =>
    match stringifyVal v with
    | none => stringifyObj rest
    | some sv =>
      let tail := stringifyObj rest
      jsonQuote k ++ ":" ++ sv ++ (if tail = "" then "" else "," ++ tail)

end

/-- Whitespace characters JSON allows between tokens. -/
def jsonWs (c : Char) : Bool :=
  c = ' ' || c.toNat = 9 || c.toNat = 10 || c.toNat = 13

/-- Drop leading JSON whitespace. -/
def skipWs : List Char → List Char
  | c :: rest => if jsonWs c then skipWs rest else c :: rest
  | [] => []

/-- Value of a hexadecimal digit character. -/
def hexVal (c : Char) : Option Nat :=
  let n := c.toNat
  if 48 ≤ n ∧ n ≤ 57 then some (n - 48)
  else if 97 ≤ n ∧ n ≤ 102 then some (n - 87)
  else if 65 ≤ n ∧ n ≤ 70 then some (n - 55)
  else none

/-- Parse the body of a JSON string literal after the opening quote,
returning the decoded characters and the rest of the input. -/
def parseStringBody : Nat → List Char → Option (List Char × List Char)
  | 0, _ => none
  | _, [] => none
  | fuel + 1, c :: rest =>
    if c = '"' then some ([], rest)
    else if c = '\\' then
      match rest with
      | [] => none
      | e :: rest2 =>
        let simple : Option Char :=
          if e = '"' then some '"'
          else if e = '\\' then some '\\'
          else if e = '/' then some '/'
          else if e = 'b' then some (Char.ofNat 8)
          else if e = 'f' then some (Char.ofNat 12)
          else if e = 'n' then some (Char.ofNat 10)
          else if e = 'r' then some (Char.ofNat 13)
          else if e = 't' then some (Char.ofNat 9)
          else none
        match simple with
        | some ch => (parseStringBody fuel rest2).map (fun p => (ch :: p.1, p.2))
        | none =>
          if e = 'u' then
            match rest2 with
            | h1 :: h2 :: h3 :: h4 :: rest3 =>
              match hexVal h1, hexVal h2, hexVal h3, hexVal h4 with
              | some a, some b, some c2, some d =>
                (parseStringBody fuel rest3).map
                  (fun p => (Char.ofNat (4096 * a + 256 * b + 16 * c2 + d) :: p.1, p.2))
              | _, _, _, _ => none
            | _ => none
          else none
    else (parseStringBody fuel rest).map (fun p => (c :: p.1, p.2))

/-- Split a leading run of decimal digits from the input. -/
def takeDigits : List Char → List Char × List Char
  | [] => ([], [])
  | c :: rest =>
    if c.isDigit then
      let p := takeDigits rest
      (c :: p.1, p.2)
    else ([], c :: rest)

/-- Numeric value of a digit run. -/
def digitsToNat (ds : List Char) : Nat :=
  ds.foldl (fun acc c => 10 * acc + (c.toNat - 48)) 0

/-- Finish a numeral: the modelled values only carry integer-valued
numbers, so a fraction or exponent makes the parse fail rather than
produce a misrepresented value. -/
def numGuard (rest : List Char) (n : Int) : Option (JsValue × List Char) :=
  match rest with
  | c :: _ => if c = '.' || c = 'e' || c = 'E' then none else some (.num n, rest)
  | [] => some (.num n, [])

mutual

/-- Parse one JSON value (`JSON.parse` grammar on the modelled subset);
fuel is structural so the kernel can evaluate the parser. -/
def parseValue : Nat → List Char → Option (JsValue × List Char)
  | 0, _ => none
  | fuel + 1, cs =>
    match skipWs cs with
    | [] => none
    | c :: rest =>
      if c = '"' then
        (parseStringBody (fuel + 1) rest).map (fun p => (.str (String.mk p.1), p.2))
      else if c = '\x7b' then
        match skipWs rest with
        | '\x7d' :: rest2 => some (.obj [], rest2)
        | rest2 => (parseMembers fuel rest2).map (fun p => (.obj p.1, p.2))
      else if c = '[' then
        match skipWs rest with
        | ']' :: rest2 => some (.arr [], rest2)
        | rest2 => (parseElements fuel rest2).map (fun p => (.arr p.1, p.2))
      else if c = 't' then
        match rest with
        | 'r' :: 'u' :: 'e' :: rest2 => some (.bool true, rest2)
        | _ => none
      else if c = 'f' then
        match rest with
        | 'a' :: 'l' :: 's' :: 'e' :: rest2 => some (.bool false, rest2)
        | _ => none
      else if c = 'n' then
        match rest with
        | 'u' :: 'l' :: 'l' :: rest2 => some (.null, rest2)
        | _ => none
      else if c = '-' then
        match takeDigits rest with
        | ([], _) => none
        | (ds, rest2) => numGuard rest2 (-(digitsToNat ds : Int))
      else if c.isDigit then
        let p := takeDigits (c :: rest)
        numGuard p.2 (digitsToNat p.1)
      else none

/-- Parse the members of a nonempty JSON object up to the closing brace. -/
def parseMembers : Nat → List Char → Option (List (String × JsValue) × List Char)
  | 0, _ => none
  | fuel + 1, cs =>
    match skipWs cs with
    | '"' :: rest =>
      match parseStringBody (fuel + 1) rest with
      | none => none
      | some (kcs, rest2) =>
        match skipWs rest2 with
        | ':' :: rest3 =>
          match parseValue fuel rest3 with
          | none => none
          | some (v, rest4) =>
            match skipWs rest4 with
            | ',' :: rest5 =>
              (parseMembers fuel rest5).map (fun p => ((String.mk kcs, v) :: p.1, p.2))
            | '\x7d' :: rest5 => some ([(String.mk kcs, v)], rest5)
            | _ => none
        | _ => none
    | _ => none

/-- Parse the elements of a nonempty JSON array up to the closing
bracket. -/
def parseElements : Nat → List Char → Option (List JsValue × List Char)
  | 0, _ => none
  | fuel + 1, cs =>
    match parseValue fuel cs with
    | none => none
    | some (v, rest) =>
      match skipWs rest with
      | ',' :: rest2 => (parseElements fuel rest2).map (fun p => (v :: p.1, p.2))
      | ']' :: rest2 => some ([v], rest2)
      | _ => none

end

/-- JavaScript `JSON.parse` on the modelled subset: `none` is a thrown
`SyntaxError`.  The fuel bound `2·n + 2` always suffices, since every
two nested parser frames consume at least one input character. -/
def jsonParse (s : String) : Option JsValue :=
  match parseValue (2 * s.data.length + 2) s.data with
  | some (v, rest) => if (skipWs rest).isEmpty then some v else none
  | none => none

/-- The failure kinds of the client, as structured variants (the source
builds `VError`s carrying these data in formatted messages, with
`error.name` repurposed for the numeric code). -/
inductive ApiError where
  | missingCredentials (functionName : String)
  | invalidParameter (functionName : String) (params : JsValue)
  | transport (cause : String) (desc : String)
  | httpStatus (status : Nat) (desc : String)
  | responseDecode (info : String)
  | remoteApi (code : JsValue) (message : String) (desc : String)
  | generic (message : String)
deriving Repr

/-- The headers `privateRequest` attaches (source lines 43–48). -/
structure RequestHeaders where
  authorization : String
  contentType : String
  contentLength : Nat
  userAgent : String
deriving Repr

/-- One outbound request descriptor, the `options` object handed to the
`request` transport; absent fields are `none`/`false`. -/
structure RequestOptions where
  url : String
  method : String
  headers : Option RequestHeaders := none
  timeout : Option Nat := none
  form : Option String := none
  qs : Option JsValue := none
  json : Bool := false
deriving Repr

/-- Client instance state fixed by the constructor (source lines 15–25). -/
structure Client where
  key : Option String
  secret : Option String
  hostname : String
  server : String
  publicApiPath : String
  privateApiPath : String
  timeout : Nat
deriving Repr

/-- JavaScript falsiness of an optional string argument: absent or
empty. -/
def strFalsy : Option String → Bool
  | none => true
  | some s => s = ""

/-- The constructor `new Cryptopia(key, secret, hostname, timeout)`:
hostname defaults to `www.cryptopia.co.nz` and timeout to `20000`
through `||`, so empty/zero arguments also take the default. -/
def mkClient (key secret hostname : Option String) (timeout : Option Nat) : Client :=
  let host := match hostname with
    | some h => if h = "" then "www.cryptopia.co.nz" else h
    | none => "www.cryptopia.co.nz"
  { key := key
    secret := secret
    hostname := host
    server := "https://" ++ host
    publicApiPath := "api"
    privateApiPath := "api"
    timeout := match timeout with
      | some t => if t = 0 then 20000 else t
      | none => 20000 }

/-- Outcome of the synchronous part of a call: an immediate rejection, a
synchronous exception, or a request descriptor handed to the transport. -/
inductive CallStep where
  | reject (e : ApiError)
  | thrown
  | send (opts : RequestOptions) (desc : String)
deriving Repr

/-- What the `request` transport passes to its callback: an error, the
response status code, and the body (a raw string for form requests, the
auto-decoded value for `json` requests). -/
structure HttpResponse where
  transportError : Option String
  statusCode : Nat
  data : JsValue
deriving Repr

/-- Outcome of `executeRequest`: a settled promise. -/
inductive ExecResult where
  | reject (e : ApiError)
  | resolve (v : JsValue)
deriving Repr

/-- Outcome of a full `privateRequest`/`publicRequest` call. -/
inductive CallResult where
  | reject (e : ApiError)
  | thrown
  | resolve (v : JsValue)
deriving Repr

/-- The static error-code table (source lines 276–312), keyed as
JavaScript object keys, i.e. by the string coercion of the code. -/
def ERROR_CODES : List (String × String) := [
  ("10000", "Required parameter can not be null"),
  ("10001", "Requests are too frequent"),
  ("10002", "System Error"),
  ("10003", "Restricted list request, please try again later"),
  ("10004", "IP restriction"),
  ("10005", "Key does not exist"),
  ("10006", "User does not exist"),
  ("10007", "Signatures do not match"),
  ("10008", "Illegal parameter"),
  ("10009", "Order does not exist"),
  ("10010", "Insufficient balance"),
  ("10011", "Order is less than minimum trade amount"),
  ("10012", "Unsupported symbol (not btc_usd or ltc_usd)"),
  ("10013", "This interface only accepts https requests"),
  ("10014", "Order price must be between 0 and 1,000,000"),
  ("10015", "Order price differs from current market price too much"),
  ("10016", "Insufficient coins balance"),
  ("10017", "API authorization error"),
  ("10026", "Loan (including reserved loan) and margin cannot be withdrawn"),
  ("10027", "Cannot withdraw within 24 hrs of authentication information modification"),
  ("10028", "Withdrawal amount exceeds daily limit"),
  ("10029", "Account has unpaid loan, please cancel/pay off the loan before withdraw"),
  ("10031", "Deposits can only be withdrawn after 6 confirmations"),
  ("10032", "Please enabled phone/google authenticator"),
  ("10033", "Fee higher than maximum network transaction fee"),
  ("10034", "Fee lower than minimum network transaction fee"),
  ("10035", "Insufficient BTC/LTC"),
  ("10036", "Withdrawal amount too low"),
  ("10037", "Trade password not set"),
  ("10040", "Withdrawal cancellation fails"),
  ("10041", "Withdrawal address not approved"),
  ("10042", "Admin password error"),
  ("10100", "User account frozen"),
  ("10216", "Non-available API"),
  ("503", "Too many requests (Http)")]

/-- `mapErrorMessage` (source lines 319–324): look the code up in the
table, fall back to an unknown-code message carrying the code itself
(the template literal coerces it with `String(...)`). -/
def mapErrorMessage (error_code : JsValue) : String :=
  match ERROR_CODES.lookup (jsString error_code) with
  | some m => m
  | none => "Unknown Cryptopia error code: " ++ jsString error_code

/-- The error-setting chain of the `executeRequest` callback (source
lines 235–256): transport error, then HTTP status outside [200, 300),
then body decoding — form bodies are `JSON.parse`d, `json` bodies must
already be objects.  Returns the pending error (if any) and the
`returnObject` the chain leaves behind. -/
def callbackStep (options : RequestOptions) (requestDesc : String)
    (r : HttpResponse) : Option ApiError × JsValue :=
  match r.transportError with
  | some cause => (some (.transport cause requestDesc), r.data)
  | none =>
    if r.statusCode < 200 || r.statusCode ≥ 300 then
      (some (.httpStatus r.statusCode requestDesc), r.data)
    else if options.form.isSome then
      match jsonParse (jsString r.data) with
      | some v => (none, v)
      | none => (some (.responseDecode (jsString r.data)), r.data)
    else if options.json && !isObject r.data then
      (some (.responseDecode requestDesc), r.data)
    else (none, r.data)

/-- `executeRequest` (source lines 230–274): run the callback chain;
a body carrying `error_code` overrides any pending error with a
`RemoteApiError` built from the table; otherwise the pending error
rejects or the `returnObject` resolves. -/
def executeRequest (options : RequestOptions) (requestDesc : String)
    (r : HttpResponse) : ExecResult :=
  let step := callbackStep options requestDesc r
  if hasProp step.2 "error_code" then
    let code := getProp step.2 "error_code"
    .reject (.remoteApi code (mapErrorMessage code) requestDesc)
  else
    match step.1 with
    | some e => .reject e
    | none => .resolve step.2

/-- Function name used in `privateRequest` error messages. -/
def privateFn : String := "Cryptopia.privateRequest()"

/-- Function name used in `publicRequest` error messages. -/
def publicFn : String := "Cryptopia.publicRequest()"

/-- The synchronous part of `Cryptopia.privateRequest` (source lines
27–59): credential check, `_.isObject` params check, MD5 digest of the
serialized params, nonce from the wall clock (`Date.now()` gives
milliseconds; `Math.floor` of the division gives whole seconds),
signature over key ++ "POST" ++ lowercased percent-encoded URL ++ nonce
++ digest with HMAC-SHA256 keyed by the base64-decoded secret, and the
request descriptor with the `amx` Authorization header.  A params value
that serializes to `undefined` (a function) makes `hash.update` throw. -/
def privatePrepare (c : Client) (method : String) (params : JsValue)
    (nowMs : Nat) : CallStep :=
  if strFalsy c.key || strFalsy c.secret then
    .reject (.missingCredentials privateFn)
  else if !isObject params then
    .reject (.invalidParameter privateFn params)
  else
    match stringifyVal params with
    | none => .thrown
    | some body =>
      let keyS := c.key.getD ""
      let secretS := c.secret.getD ""
      let md5 := base64Encode (md5Bytes (utf8Encode body))
      let nonce := nowMs / 1000
      let url := c.server ++ "/" ++ c.privateApiPath ++ "/" ++ method
      let signature := keyS ++ "POST" ++ asciiLower (encodeURIComponent url) ++
        toString nonce ++ md5
      let hmacSignature :=
        base64Encode (hmacSha256 (base64Decode secretS) (utf8Encode signature))
      let headers : RequestHeaders := {
        authorization := "amx " ++ keyS ++ ":" ++ hmacSignature ++ ":" ++ toString nonce
        contentType := "application/json; charset=utf-8"
        contentLength := (utf8Encode body).length
        userAgent := "nodejs-7.5-api-client" }
      let options : RequestOptions :=
        { url := url, method := "POST", headers := some headers, form := some body }
      let requestDesc := "POST request to url " ++ url ++ " with method " ++
        method ++ " and params " ++ body
      .send options requestDesc

/-- The synchronous part of `Cryptopia.publicRequest` (source lines
62–78): `_.isObject` params check, then a GET descriptor carrying the
instance timeout, the params as query string, and automatic JSON
decoding. -/
def publicPrepare (c : Client) (method : String) (params : JsValue) : CallStep :=
  if !isObject params then
    .reject (.invalidParameter publicFn params)
  else
    let url := c.server ++ "/" ++ c.publicApiPath ++ "/" ++ method
    let options : RequestOptions :=
      { url := url, method := "GET", timeout := some c.timeout,
        qs := some params, json := true }
    let requestDesc := "GET request to url " ++ url ++ " with parameters " ++
      ((stringifyVal params).getD "undefined")
    .send options requestDesc

/-- A full private call against one transport response. -/
def privateRequest (c : Client) (method : String) (params : JsValue)
    (nowMs : Nat) (r : HttpResponse) : CallResult :=
  match privatePrepare c method params nowMs with
  | .reject e => .reject e
  | .thrown => .thrown
  | .send opts desc =>
    match executeRequest opts desc r with
    | .reject e => .reject e
    | .resolve v => .resolve v

/-- A full public call against one transport response, including the
`.then` postprocessing (source lines 81–86): a truthy `Error` field
rejects with a generic error carrying its string coercion, otherwise
the call resolves with the `Data` field. -/
def publicRequest (c : Client) (method : String) (params : JsValue)
    (r : HttpResponse) : CallResult :=
  match publicPrepare c method params with
  | .reject e => .reject e
  | .thrown => .thrown
  | .send opts desc =>
    match executeRequest opts desc r with
    | .reject e => .reject e
    | .resolve v =>
      if truthy (getProp v "Error") then .reject (.generic (jsString (getProp v "Error")))
      else .resolve (getProp v "Data")

/-- Modelled from the spec (§4.1, algorithm steps 1–7, with the spec's
canonical serialization instantiated to the same insertion-order
`JSON.stringify` the wire protocol fixes): digest = base64 of the MD5
of the serialized params; signature source = key ++ "POST" ++
lowercased percent-encoding of the full URL ++ nonce ++ digest;
signature = base64 of HMAC-SHA256 over the source keyed by the
base64-decoded secret; header value = `amx key:signature:nonce`. -/
def specAuthHeader (key secret url body : String) (nonce : Nat) : String :=
  let digest := base64Encode (md5Bytes (utf8Encode body))
  let source := key ++ "POST" ++ asciiLower (encodeURIComponent url) ++
    toString nonce ++ digest
  let sig := base64Encode (hmacSha256 (base64Decode secret) (utf8Encode source))
  "amx " ++ key ++ ":" ++ sig ++ ":" ++ toString nonce

/-- Project the request descriptor out of a prepared call, if the call
reached the transport. -/
def sentOptions : CallStep → Option RequestOptions
  | .send o _ => some o
  | _ => none

/-- A demonstration client with both credentials present
(`c2VjcmV0` is the base64 spelling of the bytes of `secret`). -/
def demoClient : Client := mkClient (some "mykey") (some "c2VjcmV0") none none

/-- A demonstration client constructed without a key. -/
def demoKeyless : Client := mkClient none (some "c2VjcmV0") none none

/-- A demonstration public-style request descriptor (GET, auto-decoded
JSON), as `publicPrepare` builds. -/
def demoGetOptions : RequestOptions :=
  { url := "https://www.cryptopia.co.nz/api/m", method := "GET",
    timeout := some 20000, qs := some (.obj []), json := true }

/-- Congruence of the private signing pipeline in the serialized
params: once both params pass `_.isObject`, every later step (digest,
nonce, signature source, HMAC signature, headers, body, description)
reads the params only through `JSON.stringify`, so equal serializations
give equal prepared requests. -/
theorem privatePrepare_congr_serialization (c : Client) (m : String) (now : Nat)
    (p₁ p₂ : JsValue) (h₁ : isObject p₁ = true) (h₂ : isObject p₂ = true)
    (hs : stringifyVal p₁ = stringifyVal p₂) :
    privatePrepare c m p₁ now = privatePrepare c m p₂ now := by
  simp [privatePrepare, h₁, h₂, hs]

/-- C1 (confirmed): for every private call with key and secret present
and object params, the Authorization header of the prepared request is
exactly the value of the spec's algorithm — digest = base64 of the MD5
of the JSON-serialized params, nonce = whole Unix seconds of the call
time, signature source = key ++ "POST" ++ lowercased percent-encoding
of the full URL ++ nonce ++ digest, signature = base64 of HMAC-SHA256
over that source keyed by the base64-decoded secret, header value =
`amx key:signature:nonce`. -/
theorem privateRequest_auth_header_matches_spec (c : Client) (m : String)
    (p : JsValue) (body : String) (now : Nat)
    (hk : strFalsy c.key = false) (hsec : strFalsy c.secret = false)
    (hp : isObject p = true) (hb : stringifyVal p = some body) :
    (sentOptions (privatePrepare c m p now)).map
        (fun o => o.headers.map RequestHeaders.authorization) =
      some (some (specAuthHeader (c.key.getD "") (c.secret.getD "")
        (c.server ++ "/" ++ c.privateApiPath ++ "/" ++ m) body (now / 1000))) := by
  simp [privatePrepare, hk, hsec, hp, hb, specAuthHeader, sentOptions]

/-- Witness for C1 at a concrete client, method, params and clock. -/
theorem privateRequest_auth_header_matches_spec_witness :
    strFalsy demoClient.key = false ∧ strFalsy demoClient.secret = false ∧
    isObject (JsValue.obj []) = true ∧
    stringifyVal (JsValue.obj []) = some "\x7b\x7d" ∧
    (sentOptions (privatePrepare demoClient "GetBalance" (.obj []) 1700000000123)).map
        (fun o => o.headers.map RequestHeaders.authorization) =
      some (some (specAuthHeader (demoClient.key.getD "") (demoClient.secret.getD "")
        (demoClient.server ++ "/" ++ demoClient.privateApiPath ++ "/" ++ "GetBalance")
        "\x7b\x7d" (1700000000123 / 1000))) :=
  ⟨by decide, by decide, by decide, by decide,
    privateRequest_auth_header_matches_spec demoClient "GetBalance" (.obj [])
      "\x7b\x7d" 1700000000123 (by decide) (by decide) (by decide) (by decide)⟩

/-- C2 (confirmed): a private call with key or secret absent (or empty,
which JavaScript's `!` also treats as missing) rejects with the
missing-credentials error for every params value — including invalid
ones, so the check precedes params validation and signing — and for
every transport response, so the transport is never consulted. -/
theorem privateRequest_missing_credentials (c : Client) (m : String)
    (p : JsValue) (now : Nat)
    (h : strFalsy c.key = true ∨ strFalsy c.secret = true) :
    privatePrepare c m p now = .reject (.missingCredentials privateFn) ∧
    ∀ r : HttpResponse,
      privateRequest c m p now r = .reject (.missingCredentials privateFn) := by
  constructor
  · rcases h with h | h <;> simp [privatePrepare, h]
  · intro r
    rcases h with h | h <;> simp [privateRequest, privatePrepare, h]

/-- Witness for C2: keyless client, deliberately invalid (string)
params, arbitrary transport response. -/
theorem privateRequest_missing_credentials_witness :
    (strFalsy demoKeyless.key = true ∨ strFalsy demoKeyless.secret = true) ∧
    privatePrepare demoKeyless "GetBalance" (.str "oops") 0 =
      .reject (.missingCredentials privateFn) ∧
    privateRequest demoKeyless "GetBalance" (.str "oops") 0 ⟨none, 200, .obj []⟩ =
      .reject (.missingCredentials privateFn) := by
  have h := privateRequest_missing_credentials demoKeyless "GetBalance"
    (.str "oops") 0 (Or.inl (by decide))
  exact ⟨Or.inl (by decide), h.1, h.2 ⟨none, 200, .obj []⟩⟩

/-- C3 (confirmed): a non-object params argument (string, `null`,
number, boolean or `undefined` — everything `_.isObject` rejects) makes
a credentialed private call and any public call reject with the
invalid-parameter error for every transport response, hence before
signing and before any network I/O. -/
theorem request_invalid_params_reject (c : Client) (m : String) (p : JsValue)
    (now : Nat) (hp : isObject p = false)
    (hk : strFalsy c.key = false) (hsec : strFalsy c.secret = false) :
    (∀ r : HttpResponse,
      privateRequest c m p now r = .reject (.invalidParameter privateFn p)) ∧
    (∀ r : HttpResponse,
      publicRequest c m p r = .reject (.invalidParameter publicFn p)) := by
  constructor
  · intro r; simp [privateRequest, privatePrepare, hp, hk, hsec]
  · intro r; simp [publicRequest, publicPrepare, hp]

/-- Witness for C3: string params on a credentialed client, both call
kinds, a concrete transport response. -/
theorem request_invalid_params_reject_witness :
    isObject (JsValue.str "x") = false ∧
    privateRequest demoClient "GetBalance" (.str "x") 0 ⟨none, 200, .obj []⟩ =
      .reject (.invalidParameter privateFn (.str "x")) ∧
    publicRequest demoClient "GetCurrencies/" (.str "x") ⟨none, 200, .obj []⟩ =
      .reject (.invalidParameter publicFn (.str "x")) := by
  have h := request_invalid_params_reject demoClient "GetBalance" (.str "x") 0
    (by decide) (by decide) (by decide)
  have h2 := request_invalid_params_reject demoClient "GetCurrencies/" (.str "x") 0
    (by decide) (by decide) (by decide)
  exact ⟨by decide, h.1 ⟨none, 200, .obj []⟩, h2.2 ⟨none, 200, .obj []⟩⟩

/-- C4 (corrected): only public calls carry the per-instance timeout in
their request descriptor; the constructor defaults the instance timeout
to 20000 ms when none is supplied, but the private-call descriptor
carries no timeout field at all. -/
theorem request_timeout_field (c : Client) (m : String) (p : JsValue)
    (now : Nat) (body : String) (hp : isObject p = true)
    (hk : strFalsy c.key = false) (hsec : strFalsy c.secret = false)
    (hb : stringifyVal p = some body) :
    (sentOptions (publicPrepare c m p)).map RequestOptions.timeout =
        some (some c.timeout) ∧
    (sentOptions (privatePrepare c m p now)).map RequestOptions.timeout =
        some none ∧
    (∀ k s h, (mkClient k s h none).timeout = 20000) := by
  refine ⟨by simp [publicPrepare, hp, sentOptions],
    by simp [privatePrepare, hp, hk, hsec, hb, sentOptions], ?_⟩
  intro k s h
  simp [mkClient]

/-- Witness for C4's amended statement at a concrete client and params. -/
theorem request_timeout_field_witness :
    isObject (JsValue.obj []) = true ∧
    stringifyVal (JsValue.obj []) = some "\x7b\x7d" ∧
    (sentOptions (publicPrepare demoClient "m" (.obj []))).map RequestOptions.timeout =
      some (some demoClient.timeout) ∧
    (sentOptions (privatePrepare demoClient "m" (.obj []) 0)).map RequestOptions.timeout =
      some none :=
  have h := request_timeout_field demoClient "m" (.obj []) 0 "\x7b\x7d"
    (by decide) (by decide) (by decide) (by decide)
  ⟨by decide, by decide, h.1, h.2.1⟩

/-- Counterexample to C4 as stated: a concrete private call prepared by
a client whose timeout defaulted to 20000 produces a request descriptor
with no timeout field, not the instance timeout. -/
theorem private_descriptor_timeout_counterexample :
    (sentOptions (privatePrepare demoClient "GetBalance" (.obj []) 1700000000000)).map
        RequestOptions.timeout = some none ∧
    (sentOptions (privatePrepare demoClient "GetBalance" (.obj []) 1700000000000)).map
        RequestOptions.timeout ≠ some (some 20000) := by
  have h1 : (sentOptions (privatePrepare demoClient "GetBalance" (.obj [])
      1700000000000)).map RequestOptions.timeout = some none := rfl
  exact ⟨h1, by rw [h1]; simp⟩

/-- C5 (confirmed): whenever the decoded body the callback chain leaves
behind carries an `error_code` field, the call rejects with the
remote-API error whose message is the static table lookup of that code;
10007 maps to exactly "Signatures do not match" and a code absent from
the table (99999) maps to the unknown-code message carrying the literal
code. -/
theorem executeRequest_error_code_message (options : RequestOptions)
    (desc : String) (r : HttpResponse)
    (h : hasProp (callbackStep options desc r).2 "error_code" = true) :
    executeRequest options desc r =
      .reject (.remoteApi (getProp (callbackStep options desc r).2 "error_code")
        (mapErrorMessage (getProp (callbackStep options desc r).2 "error_code")) desc) ∧
    mapErrorMessage (.num 10007) = "Signatures do not match" ∧
    mapErrorMessage (.num 99999) = "Unknown Cryptopia error code: 99999" := by
  refine ⟨?_, by decide, by decide⟩
  simp [executeRequest, h]

/-- Witness for C5: a public-style descriptor and a well-formed 200
response whose body carries `error_code: 10007`. -/
theorem executeRequest_error_code_message_witness :
    hasProp (callbackStep demoGetOptions "d"
        ⟨none, 200, .obj [("error_code", .num 10007)]⟩).2 "error_code" = true ∧
    executeRequest demoGetOptions "d" ⟨none, 200, .obj [("error_code", .num 10007)]⟩ =
      .reject (.remoteApi
        (getProp (callbackStep demoGetOptions "d"
          ⟨none, 200, .obj [("error_code", .num 10007)]⟩).2 "error_code")
        (mapErrorMessage (getProp (callbackStep demoGetOptions "d"
          ⟨none, 200, .obj [("error_code", .num 10007)]⟩).2 "error_code")) "d") :=
  ⟨by decide,
    (executeRequest_error_code_message demoGetOptions "d"
      ⟨none, 200, .obj [("error_code", .num 10007)]⟩ (by decide)).1⟩

/-- C6 (corrected): for a public call whose executed response decodes
to an object, the postprocessing checks the truthiness of the `Error`
value, not the presence of the field: a truthy `Error` rejects with a
generic error carrying its string coercion, while an absent or falsy
`Error` (null, empty string) resolves with the body's `Data` field; in
particular `{Error: null, Data: {foo: 1}}` resolves with `{foo: 1}` and
`{Error: "bad thing", Data: null}` rejects with message "bad thing". -/
theorem publicRequest_envelope (c : Client) (m : String) (p : JsValue)
    (st : Nat) (b : JsValue)
    (hp : isObject p = true) (h2xx : 200 ≤ st ∧ st < 300)
    (hobj : isObject b = true) (hec : hasProp b "error_code" = false) :
    (publicRequest c m p ⟨none, st, b⟩ =
      if truthy (getProp b "Error") then
        .reject (.generic (jsString (getProp b "Error")))
      else .resolve (getProp b "Data")) ∧
    publicRequest c m p
        ⟨none, 200, .obj [("Error", .null), ("Data", .obj [("foo", .num 1)])]⟩ =
      .resolve (.obj [("foo", .num 1)]) ∧
    publicRequest c m p
        ⟨none, 200, .obj [("Error", .str "bad thing"), ("Data", .null)]⟩ =
      .reject (.generic "bad thing") := by
  have main : ∀ (st' : Nat) (b' : JsValue), 200 ≤ st' → st' < 300 →
      isObject b' = true → hasProp b' "error_code" = false →
      publicRequest c m p ⟨none, st', b'⟩ =
        if truthy (getProp b' "Error") then
          .reject (.generic (jsString (getProp b' "Error")))
        else .resolve (getProp b' "Data") := by
    intro st' b' hlo hhi hobj' hec'
    have hcond : (decide (st' < 200) || decide (st' ≥ 300)) = false := by
      simp only [Bool.or_eq_false_iff, decide_eq_false_iff_not]
      omega
    simp [publicRequest, publicPrepare, hp, executeRequest, callbackStep,
      hcond, hobj', hec']
  refine ⟨main st b h2xx.1 h2xx.2 hobj hec, ?_, ?_⟩
  · rw [main 200 _ (by omega) (by omega) (by decide) (by decide)]
    rfl
  · rw [main 200 _ (by omega) (by omega) (by decide) (by decide)]
    rfl

/-- Witness for C6's amended statement: a 200 response with a truthy
`Error` value rejects with that message. -/
theorem publicRequest_envelope_witness :
    isObject (JsValue.obj []) = true ∧
    (200 ≤ 200 ∧ 200 < 300) ∧
    isObject (JsValue.obj [("Error", .str "oops"), ("Data", .null)]) = true ∧
    hasProp (JsValue.obj [("Error", .str "oops"), ("Data", .null)]) "error_code" = false ∧
    publicRequest demoClient "m" (.obj [])
        ⟨none, 200, .obj [("Error", .str "oops"), ("Data", .null)]⟩ =
      (if truthy (getProp (.obj [("Error", .str "oops"), ("Data", .null)]) "Error") then
        .reject (.generic (jsString (getProp (.obj [("Error", .str "oops"), ("Data", .null)]) "Error")))
      else .resolve (getProp (.obj [("Error", .str "oops"), ("Data", .null)]) "Data")) :=
  ⟨by decide, by omega, by decide, by decide,
    (publicRequest_envelope demoClient "m" (.obj []) 200
      (.obj [("Error", .str "oops"), ("Data", .null)])
      (by decide) (by omega) (by decide) (by decide)).1⟩

/-- Counterexample to C6 as stated: this body carries a top-level
`Error` field (with the string value `""`), yet the call resolves with
`Data` instead of rejecting with that `Error` value as its message. -/
theorem publicRequest_error_field_counterexample :
    hasProp (JsValue.obj [("Error", .str ""), ("Data", .obj [("foo", .num 1)])]) "Error" = true ∧
    publicRequest demoClient "m" (.obj [])
        ⟨none, 200, .obj [("Error", .str ""), ("Data", .obj [("foo", .num 1)])]⟩ =
      .resolve (.obj [("foo", .num 1)]) :=
  ⟨by decide, rfl⟩

/-- C7 (corrected): a response with HTTP status outside [200, 300)
rejects with the HTTP-status error carrying that status and the
diagnostic description, provided the delivered body does not itself
carry an `error_code` field — in that case the remote-API error built
from the code replaces the status error (see the counterexample). -/
theorem executeRequest_http_status (options : RequestOptions) (desc : String)
    (st : Nat) (b : JsValue)
    (hst : st < 200 ∨ 300 ≤ st) (hec : hasProp b "error_code" = false) :
    executeRequest options desc ⟨none, st, b⟩ = .reject (.httpStatus st desc) := by
  have hcond : (decide (st < 200) || decide (st ≥ 300)) = true := by
    rcases hst with h | h <;> simp [h]
  simp [executeRequest, callbackStep, hcond, hec]

/-- Witness for C7's amended statement: the claim's own instance, a
simulated status-503 response (body without `error_code`) rejecting
with the status error carrying 503. -/
theorem executeRequest_http_status_witness :
    (503 < 200 ∨ 300 ≤ 503) ∧
    hasProp (JsValue.str "Service Unavailable") "error_code" = false ∧
    executeRequest demoGetOptions "d" ⟨none, 503, .str "Service Unavailable"⟩ =
      .reject (.httpStatus 503 "d") :=
  ⟨Or.inr (by omega), by decide,
    executeRequest_http_status demoGetOptions "d" 503 (.str "Service Unavailable")
      (Or.inr (by omega)) (by decide)⟩

/-- Counterexample to C7 as stated: a status-503 response whose decoded
body carries `error_code: 10002` rejects with the remote-API error, not
with the HTTP-status error the claim promises for every non-2xx
status. -/
theorem executeRequest_status_error_code_counterexample :
    executeRequest demoGetOptions "d" ⟨none, 503, .obj [("error_code", .num 10002)]⟩ =
      .reject (.remoteApi (.num 10002) "System Error" "d") ∧
    executeRequest demoGetOptions "d" ⟨none, 503, .obj [("error_code", .num 10002)]⟩ ≠
      .reject (.httpStatus 503 "d") := by
  have h1 : executeRequest demoGetOptions "d"
      ⟨none, 503, .obj [("error_code", .num 10002)]⟩ =
      .reject (.remoteApi (.num 10002) "System Error" "d") := rfl
  exact ⟨h1, by rw [h1]; simp⟩

/-- C8 (corrected): private-call signing is deterministic — it reads
the params only through their JSON serialization, so fixed inputs and a
fixed clock reproduce the identical digest and signature, and any two
params with the same serialization produce the identical prepared
request; the change-sensitivity half of the claim fails (see the
counterexample). -/
theorem private_signing_deterministic (c : Client) (m : String) (now : Nat)
    (p₁ p₂ : JsValue) (h₁ : isObject p₁ = true) (h₂ : isObject p₂ = true)
    (hs : stringifyVal p₁ = stringifyVal p₂) :
    privatePrepare c m p₁ now = privatePrepare c m p₂ now ∧
    md5Bytes (utf8Encode ((stringifyVal p₁).getD "")) =
      md5Bytes (utf8Encode ((stringifyVal p₂).getD "")) :=
  ⟨privatePrepare_congr_serialization c m now p₁ p₂ h₁ h₂ hs, by rw [hs]⟩

/-- Witness for C8's amended statement: two runs on the same concrete
inputs and clock produce the identical prepared request and digest. -/
theorem private_signing_deterministic_witness :
    isObject (JsValue.obj [("a", .num 1)]) = true ∧
    stringifyVal (JsValue.obj [("a", .num 1)]) = stringifyVal (JsValue.obj [("a", .num 1)]) ∧
    privatePrepare demoClient "GetBalance" (.obj [("a", .num 1)]) 1700000000123 =
      privatePrepare demoClient "GetBalance" (.obj [("a", .num 1)]) 1700000000123 :=
  ⟨by decide, rfl,
    (private_signing_deterministic demoClient "GetBalance" 1700000000123
      (.obj [("a", .num 1)]) (.obj [("a", .num 1)]) (by decide) (by decide) rfl).1⟩

/-- Counterexample to C8 as stated: changing the params — here from
`{a: undefined}` to `{}`, two different objects — leaves the entire
prepared request, signature included, unchanged, because both serialize
to `"{}"` (`JSON.stringify` drops undefined-valued entries). -/
theorem private_signature_params_aliasing_counterexample :
    JsValue.obj [("a", .undefined)] ≠ JsValue.obj [] ∧
    privatePrepare demoClient "GetBalance" (.obj [("a", .undefined)]) 1700000000000 =
      privatePrepare demoClient "GetBalance" (.obj []) 1700000000000 :=
  ⟨by simp, privatePrepare_congr_serialization demoClient "GetBalance" 1700000000000
    (.obj [("a", .undefined)]) (.obj []) (by decide) (by decide) (by decide)⟩

/-- C9 (confirmed): the `error_code` check runs on the `returnObject`
after the HTTP-status check and replaces the error it produced: a
non-2xx response whose delivered body carries `error_code` rejects with
the remote-API error built from that code, never with the HTTP-status
error. -/
theorem executeRequest_error_code_overrides_status (options : RequestOptions)
    (desc : String) (st : Nat) (b : JsValue)
    (hst : st < 200 ∨ 300 ≤ st) (hec : hasProp b "error_code" = true) :
    executeRequest options desc ⟨none, st, b⟩ =
      .reject (.remoteApi (getProp b "error_code")
        (mapErrorMessage (getProp b "error_code")) desc) ∧
    executeRequest options desc ⟨none, st, b⟩ ≠ .reject (.httpStatus st desc) := by
  have hcond : (decide (st < 200) || decide (st ≥ 300)) = true := by
    rcases hst with h | h <;> simp [h]
  have h1 : executeRequest options desc ⟨none, st, b⟩ =
      .reject (.remoteApi (getProp b "error_code")
        (mapErrorMessage (getProp b "error_code")) desc) := by
    simp [executeRequest, callbackStep, hcond, hec]
  exact ⟨h1, by rw [h1]; simp⟩

/-- Witness for C9: status 503 with body `{error_code: 10007}` rejects
with the remote-API error, not the status error. -/
theorem executeRequest_error_code_overrides_status_witness :
    (503 < 200 ∨ 300 ≤ 503) ∧
    hasProp (JsValue.obj [("error_code", .num 10007)]) "error_code" = true ∧
    executeRequest demoGetOptions "d" ⟨none, 503, .obj [("error_code", .num 10007)]⟩ =
      .reject (.remoteApi (getProp (.obj [("error_code", .num 10007)]) "error_code")
        (mapErrorMessage (getProp (.obj [("error_code", .num 10007)]) "error_code")) "d") :=
  ⟨Or.inr (by omega), by decide,
    (executeRequest_error_code_overrides_status demoGetOptions "d" 503
      (.obj [("error_code", .num 10007)]) (Or.inr (by omega)) (by decide)).1⟩

/-- C10 (confirmed): the params validation is underscore's `_.isObject`,
which accepts arrays (and functions), so an array params argument is
never rejected as an invalid parameter and both call kinds proceed to
building and sending a request descriptor. -/
theorem array_params_accepted (c : Client) (m : String) (vs : List JsValue)
    (now : Nat) (hk : strFalsy c.key = false) (hsec : strFalsy c.secret = false) :
    isObject (.arr vs) = true ∧ isObject .func = true ∧
    (sentOptions (privatePrepare c m (.arr vs) now)).isSome = true ∧
    (sentOptions (publicPrepare c m (.arr vs))).isSome = true ∧
    privatePrepare c m (.arr vs) now ≠ .reject (.invalidParameter privateFn (.arr vs)) ∧
    publicPrepare c m (.arr vs) ≠ .reject (.invalidParameter publicFn (.arr vs)) := by
  refine ⟨rfl, rfl, ?_, ?_, ?_, ?_⟩
  · simp [privatePrepare, hk, hsec, isObject, stringifyVal, sentOptions]
  · simp [publicPrepare, isObject, sentOptions]
  · simp [privatePrepare, hk, hsec, isObject, stringifyVal]
  · simp [publicPrepare, isObject]

/-- Witness for C10 at a concrete client and a concrete array. -/
theorem array_params_accepted_witness :
    strFalsy demoClient.key = false ∧ strFalsy demoClient.secret = false ∧
    isObject (JsValue.arr [.num 1]) = true ∧
    (sentOptions (privatePrepare demoClient "m" (.arr [.num 1]) 0)).isSome = true ∧
    (sentOptions (publicPrepare demoClient "m" (.arr [.num 1]))).isSome = true :=
  have h := array_params_accepted demoClient "m" [.num 1] 0 (by decide) (by decide)
  ⟨by decide, by decide, h.1, h.2.2.1, h.2.2.2.1⟩

end Cryptopia

